import Mathlib

/-!
# Verification of the skillMetrics audit-trail / history-recording core

Shallow embedding of the history-recording protocol of the skillMetrics
repository: the entity store (`src/server/storage.ts`, class `DatabaseStorage`)
and the two mutation route handlers (`src/server/routes.ts`,
`PUT /api/users/:id/profile`, `POST /api/skills`, `PUT /api/skills/:id`),
over the schema of `src/shared/schema.ts`.

Modelling conventions:
* A nullable text column (`text(...)` without `notNull`) is `Option String`
  (`none` is SQL/JS `null`).
* A request-body field that may be absent is `Option (Option String)`:
  `none` is an absent key (JS `undefined`), `some none` is an explicit `null`,
  `some (some s)` is the string `s`.
* Timestamps are `Nat`; the store carries a clock `now` that stamps every row
  written during one operation (`new Date()` / the column default `now()`).
  The clock is not advanced inside an operation.
* The database engine is modelled as lists of rows; `orderBy(desc(col))` is
  modelled by insertion sort with the relation "updatedAt is ≥ the next".
* Each operation also returns the ordered list of store-write events it
  performed, so that ordering claims are statable.
-/

namespace SkillMetrics

/-- A nullable text value as stored in a column: `none` is SQL `null`. -/
abbrev JStr := Option String

/-- A possibly-absent JSON body field: `none` = key absent (`undefined`),
`some none` = explicit `null`, `some (some s)` = string `s`. -/
abbrev JVal := Option (Option String)

/-- Row of the `users` table (`src/shared/schema.ts` lines 6-16). -/
structure User where
  id : Nat
  email : String
  password : String
  firstName : JStr
  lastName : JStr
  projectName : JStr
  clientName : JStr
  role : JStr
  location : JStr
deriving Repr, DecidableEq

/-- Row of the `skills` table (`src/shared/schema.ts` lines 46-53). -/
structure Skill where
  id : Nat
  userId : Nat
  name : String
  level : String
  updatedAt : Nat
  certificationUrl : JStr
deriving Repr, DecidableEq

/-- Row of the `skill_history` table (`src/shared/schema.ts` lines 63-71).
The serial `id` column is assigned by the database and referenced by no
claim, so it is omitted from the embedding. -/
structure SkillHistory where
  skillId : Nat
  userId : Nat
  name : String
  level : String
  certificationUrl : JStr
  updatedAt : Nat
deriving Repr, DecidableEq

/-- Row of the `profile_history` table (`src/shared/schema.ts` lines 82-89).
`newValue` is `notNull` and every caller passes a string. -/
structure ProfileHistory where
  userId : Nat
  field : String
  previousValue : JStr
  newValue : String
  updatedAt : Nat
deriving Repr, DecidableEq

/-- The durable state behind `DatabaseStorage`: the four tables, the serial
counter for skill ids, and the request-time clock. -/
structure Store where
  users : List User
  skills : List Skill
  skillHistories : List SkillHistory
  profileHistories : List ProfileHistory
  nextSkillId : Nat
  now : Nat
deriving Repr, DecidableEq

/-- One store write, in the order the code performs them. -/
inductive Event where
  | phInsert (row : ProfileHistory)
  | shInsert (row : SkillHistory)
  | userUpdate (id : Nat)
  | skillInsert (id : Nat)
  | skillUpdate (id : Nat)
deriving Repr, DecidableEq

/-- The HTTP outcomes the modelled handlers can produce. -/
inductive HttpResp where
  | okUser (u : User)
  | okSkill (s : Skill)
  | created (s : Skill)
  | forbidden
  | notFound
  | serverError
deriving Repr, DecidableEq

/-- `DatabaseStorage.getUser` (`storage.ts` line 128): select by id. -/
def getUser (st : Store) (id : Nat) : Option User :=
  st.users.find? fun u => u.id == id

/-- `DatabaseStorage.getSkillById` (`storage.ts` line 212): select by id. -/
def getSkillById (st : Store) (id : Nat) : Option Skill :=
  st.skills.find? fun s => s.id == id

/-- The payload shape `PUT /api/users/:id/profile` reads from `req.body`.
The handler only ever reads the six updatable field keys; `email`,
`password` and `bodyId` stand for extra keys a request body may carry,
which the handler never reads. -/
structure ProfileBody where
  firstName : JVal
  lastName : JVal
  projectName : JVal
  clientName : JVal
  role : JVal
  location : JVal
  email : JVal
  password : JVal
  bodyId : JVal
deriving Repr, DecidableEq

/-- The partial update record the route builds (`profileUpdates`,
`routes.ts` line 57): a `Record<string, string>` over the six updatable
fields; `none` means the key is absent. -/
structure UserPatch where
  firstName : Option String
  lastName : Option String
  projectName : Option String
  clientName : Option String
  role : Option String
  location : Option String
deriving Repr, DecidableEq

/-- `db.update(users).set({...updates})` (`storage.ts` lines 190-194):
every key present in the patch overwrites the column; absent keys leave the
column unchanged.  The patch carries no id/email/password key. -/
def applyPatch (u : User) (p : UserPatch) : User :=
  { u with
    firstName := match p.firstName with | some v => some v | none => u.firstName
    lastName := match p.lastName with | some v => some v | none => u.lastName
    projectName := match p.projectName with | some v => some v | none => u.projectName
    clientName := match p.clientName with | some v => some v | none => u.clientName
    role := match p.role with | some v => some v | none => u.role
    location := match p.location with | some v => some v | none => u.location }

/-- The storage-level change test (`storage.ts` line 178):
`updates[field] !== undefined && updates[field] !== currentUser[field]`.
JS strict inequality between `string` and `string | null`: a present string
differs from `null` and from any other string. -/
def storageChanged (v : Option String) (stored : JStr) : Bool :=
  v.isSome && v != stored

/-- The `fieldsToTrack` iteration data of `DatabaseStorage.updateUser`
(`storage.ts` line 176), in source order: field name, stored value,
patch value. -/
def trackedDeltas (cur : User) (p : UserPatch) : List (String × JStr × Option String) :=
  [("role", cur.role, p.role),
   ("projectName", cur.projectName, p.projectName),
   ("clientName", cur.clientName, p.clientName),
   ("location", cur.location, p.location)]

/-- The ProfileHistory rows `DatabaseStorage.updateUser` inserts
(`storage.ts` lines 177-188): one per tracked field that is present in the
patch and differs; `previousValue` is passed through as is (may be null),
`updatedAt: new Date()`. -/
def storageRows (uid : Nat) (now : Nat) (cur : User) (p : UserPatch) : List ProfileHistory :=
  (trackedDeltas cur p).filterMap fun d =>
    match d.2.2 with
    | some v =>
      if storageChanged (some v) d.2.1 then
        some { userId := uid, field := d.1, previousValue := d.2.1,
               newValue := v, updatedAt := now }
      else none
    | none => none

/-- `DatabaseStorage.updateUser` (`storage.ts` lines 167-201): refetch the
current user, insert one history row per changed tracked field, then update
the user row.  `none` models the thrown not-found error. -/
def updateUser (st : Store) (id : Nat) (p : UserPatch) :
    Option (User × Store × List Event) :=
  match getUser st id with
  | none => none
  | some cur =>
    let rows := storageRows id st.now cur p
    let updated := applyPatch cur p
    let st2 : Store :=
      { st with
        profileHistories := st.profileHistories ++ rows
        users := st.users.map fun u => if u.id == id then updated else u }
    some (updated, st2, rows.map Event.phInsert ++ [Event.userUpdate id])

/-- The route-level change test (`routes.ts` line 62):
`req.body[field] && req.body[field] !== currentUser[field]` — the incoming
value must be truthy (a non-empty string: `undefined`, `null` and `""` are
falsy) and strictly different from the stored value. -/
def routeChanged (stored : JStr) (incoming : JVal) : Bool :=
  match incoming with
  | some (some v) => v != "" && (some v : JStr) != stored
  | _ => false

/-- The value the route puts into `profileUpdates[field]` when it counts the
field as changed (`routes.ts` line 63), else the key stays absent. -/
def routeSel (stored : JStr) (incoming : JVal) : Option String :=
  match incoming with
  | some (some v) => if v != "" && (some v : JStr) != stored then some v else none
  | _ => none

/-- `field.replace(/([A-Z])/g, ' $1')` (`routes.ts` line 69): a space is
inserted before every uppercase letter. -/
def spaceBeforeCaps (s : String) : String :=
  String.mk (s.data.foldr (fun c acc => if c.isUpper then ' ' :: c :: acc else c :: acc) [])

/-- `.replace(/^./, str => str.toUpperCase())` (`routes.ts` line 70):
the first character is upper-cased. -/
def upFirst (s : String) : String :=
  match s.data with
  | [] => ""
  | c :: t => String.mk (c.toUpper :: t)

/-- The human-readable field label of a route-level history row
(`routes.ts` lines 68-70). -/
def fieldLabel (s : String) : String :=
  upFirst (spaceBeforeCaps s)

/-- The `updatableFields` iteration data of the profile route
(`routes.ts` line 56), in source order: field name, stored value,
incoming body value. -/
def routeDeltas (cur : User) (b : ProfileBody) : List (String × JStr × JVal) :=
  [("firstName", cur.firstName, b.firstName),
   ("lastName", cur.lastName, b.lastName),
   ("projectName", cur.projectName, b.projectName),
   ("clientName", cur.clientName, b.clientName),
   ("role", cur.role, b.role),
   ("location", cur.location, b.location)]

/-- The `historyEntries` the route builds (`routes.ts` lines 66-73):
one per changed field, label prettified, `previousValue` defaulted to the
empty string when the stored value is null (`... as string || ""`); the row
has no explicit `updatedAt`, so the column default stamps the request time. -/
def routeRows (uid : Nat) (now : Nat) (cur : User) (b : ProfileBody) : List ProfileHistory :=
  (routeDeltas cur b).filterMap fun d =>
    match d.2.2 with
    | some (some v) =>
      if v != "" && (some v : JStr) != d.2.1 then
        some { userId := uid, field := fieldLabel d.1,
               previousValue := some (d.2.1.getD ""), newValue := v, updatedAt := now }
      else none
    | _ => none

/-- The `profileUpdates` record the route passes to `storage.updateUser`
(`routes.ts` lines 61-75). -/
def mkPatch (cur : User) (b : ProfileBody) : UserPatch :=
  { firstName := routeSel cur.firstName b.firstName
    lastName := routeSel cur.lastName b.lastName
    projectName := routeSel cur.projectName b.projectName
    clientName := routeSel cur.clientName b.clientName
    role := routeSel cur.role b.role
    location := routeSel cur.location b.location }

/-- `Object.keys(profileUpdates).length > 0` (`routes.ts` line 78). -/
def routeAnyChanged (cur : User) (b : ProfileBody) : Bool :=
  (routeDeltas cur b).any fun d => routeChanged d.2.1 d.2.2

/-- The `PUT /api/users/:id/profile` handler (`routes.ts` lines 41-94):
ownership check, fetch, route-level diff, then — when anything changed —
`storage.updateUser` (which itself writes the storage-level history rows and
updates the user row) followed by the route-level history inserts. -/
def updateProfile (st : Store) (requesterId targetId : Nat) (b : ProfileBody) :
    HttpResp × Store × List Event :=
  if requesterId != targetId then (.forbidden, st, [])
  else
    match getUser st targetId with
    | none => (.notFound, st, [])
    | some cur =>
      if routeAnyChanged cur b then
        match updateUser st targetId (mkPatch cur b) with
        | none => (.serverError, st, [])
        | some (updatedUser, st1, evs1) =>
          let rows := routeRows targetId st.now cur b
          let st2 := { st1 with profileHistories := st1.profileHistories ++ rows }
          (.okUser updatedUser, st2, evs1 ++ rows.map Event.phInsert)
      else (.okUser cur, st, [])

/-- A skill mutation body after `insertSkillSchema.parse`
(`schema.ts` lines 55-60): `userId`, `name`, `level` required,
`certificationUrl` optional and nullable. -/
structure SkillBody where
  userId : Nat
  name : String
  level : String
  certificationUrl : JVal
deriving Repr, DecidableEq

/-- `DatabaseStorage.createSkill` (`storage.ts` lines 234-257): insert the
skill row (an absent `certificationUrl` is stored as the column default
`null`), then insert the initial history row mirroring the new skill. -/
def createSkill (st : Store) (b : SkillBody) : Skill × Store × List Event :=
  let skill : Skill :=
    { id := st.nextSkillId, userId := b.userId, name := b.name, level := b.level,
      updatedAt := st.now, certificationUrl := b.certificationUrl.join }
  let row : SkillHistory :=
    { skillId := skill.id, userId := skill.userId, name := skill.name,
      level := skill.level, certificationUrl := skill.certificationUrl,
      updatedAt := st.now }
  let st2 : Store :=
    { st with
      skills := st.skills ++ [skill]
      nextSkillId := st.nextSkillId + 1
      skillHistories := st.skillHistories ++ [row] }
  (skill, st2, [Event.skillInsert skill.id, Event.shInsert row])

/-- `DatabaseStorage.createSkillHistory` (`storage.ts` lines 310-322):
plain insert. -/
def createSkillHistory (st : Store) (row : SkillHistory) : Store × Event :=
  ({ st with skillHistories := st.skillHistories ++ [row] }, Event.shInsert row)

/-- `DatabaseStorage.updateSkill` (`storage.ts` lines 259-295): refetch, and
when the defined incoming level differs or the defined incoming
certification differs, insert one history row carrying the pre-update name,
`updates.level || currentSkill.level` and the incoming certification when
defined; then update the skill row (an undefined certification key leaves
the column unchanged). -/
def updateSkill (st : Store) (id : Nat) (b : SkillBody) :
    Option (Skill × Store × List Event) :=
  match getSkillById st id with
  | none => none
  | some cur =>
    let changed : Bool :=
      (b.level != cur.level) ||
        (match b.certificationUrl with
         | some c => c != cur.certificationUrl
         | none => false)
    let row : SkillHistory :=
      { skillId := id, userId := cur.userId, name := cur.name,
        level := if b.level == "" then cur.level else b.level,
        certificationUrl := b.certificationUrl.getD cur.certificationUrl,
        updatedAt := st.now }
    let updated : Skill :=
      { id := cur.id, userId := b.userId, name := b.name, level := b.level,
        updatedAt := st.now,
        certificationUrl := b.certificationUrl.getD cur.certificationUrl }
    let st2 : Store :=
      { st with
        skillHistories := st.skillHistories ++ (if changed then [row] else [])
        skills := st.skills.map fun s => if s.id == id then updated else s }
    some (updated, st2,
      (if changed then [Event.shInsert row] else []) ++ [Event.skillUpdate id])

/-- The `POST /api/skills` handler (`routes.ts` lines 106-133): ownership
check, `storage.createSkill` (which already writes one history row), then
the handler's own `storage.createSkillHistory` with the body fields. -/
def createSkillRoute (st : Store) (requesterId : Nat) (b : SkillBody) :
    HttpResp × Store × List Event :=
  if b.userId != requesterId then (.forbidden, st, [])
  else
    let (skill, st1, evs1) := createSkill st b
    let row : SkillHistory :=
      { skillId := skill.id, userId := b.userId, name := b.name, level := b.level,
        certificationUrl := b.certificationUrl.join, updatedAt := st.now }
    let (st2, ev2) := createSkillHistory st1 row
    (.created skill, st2, evs1 ++ [ev2])

/-- The `PUT /api/skills/:id` handler (`routes.ts` lines 135-178): body
ownership check, fetch (404 when absent), skill ownership check, the route's
own level/certification comparison (`!==` against the raw body value, so an
absent certification key counts as different from a stored `null`), its own
history insert when that fires, then `storage.updateSkill` (which repeats
its own comparison and may insert a second row) applies the update. -/
def updateSkillRoute (st : Store) (requesterId skillId : Nat) (b : SkillBody) :
    HttpResp × Store × List Event :=
  if b.userId != requesterId then (.forbidden, st, [])
  else
    match getSkillById st skillId with
    | none => (.notFound, st, [])
    | some ex =>
      if ex.userId != requesterId then (.forbidden, st, [])
      else
        let routeHit : Bool :=
          (ex.level != b.level) || ((b.certificationUrl : JVal) != some ex.certificationUrl)
        let row : SkillHistory :=
          { skillId := skillId, userId := b.userId, name := b.name, level := b.level,
            certificationUrl := b.certificationUrl.join, updatedAt := st.now }
        let (st1, evs1) :=
          if routeHit then (createSkillHistory st row |>.1, [Event.shInsert row])
          else (st, [])
        match updateSkill st1 skillId b with
        | none => (.serverError, st, [])
        | some (updated, st2, evs2) => (.okSkill updated, st2, evs1 ++ evs2)

/-- Descending-updatedAt order on skill-history rows: the model of
`orderBy(desc(skillHistory.updatedAt))`. -/
def shDesc (a b : SkillHistory) : Prop := b.updatedAt ≤ a.updatedAt

instance : DecidableRel shDesc := fun a b => Nat.decLe b.updatedAt a.updatedAt

instance : IsTotal SkillHistory shDesc :=
  ⟨fun a b => le_total b.updatedAt a.updatedAt⟩

instance : IsTrans SkillHistory shDesc :=
  ⟨fun _ _ _ h1 h2 => le_trans h2 h1⟩

/-- Descending-updatedAt order on profile-history rows: the model of
`orderBy(desc(profileHistory.updatedAt))`. -/
def phDesc (a b : ProfileHistory) : Prop := b.updatedAt ≤ a.updatedAt

instance : DecidableRel phDesc := fun a b => Nat.decLe b.updatedAt a.updatedAt

instance : IsTotal ProfileHistory phDesc :=
  ⟨fun a b => le_total b.updatedAt a.updatedAt⟩

instance : IsTrans ProfileHistory phDesc :=
  ⟨fun _ _ _ h1 h2 => le_trans h2 h1⟩

/-- `DatabaseStorage.getSkillHistoryBySkillId` (`storage.ts` lines 297-308):
filter by skill id, order by `updatedAt` descending. -/
def getSkillHistoryBySkillId (st : Store) (skillId : Nat) : List SkillHistory :=
  List.insertionSort shDesc (st.skillHistories.filter fun h => h.skillId == skillId)

/-- `DatabaseStorage.getProfileHistoryByUserId` (`storage.ts` lines 324-335):
filter by user id, order by `updatedAt` descending. -/
def getProfileHistoryByUserId (st : Store) (userId : Nat) : List ProfileHistory :=
  List.insertionSort phDesc (st.profileHistories.filter fun h => h.userId == userId)

/-- Is this event a profile-history insert? -/
def isPHInsert : Event → Bool
  | .phInsert _ => true
  | _ => false

/-- Is this event a user-row update? -/
def isUserUpdate : Event → Bool
  | .userUpdate _ => true
  | _ => false

/-- Formalisation of "every ProfileHistory row is persisted before the User
row is updated": from the first user-row update on, the trace contains no
further profile-history insert. -/
def phAllBeforeUserUpdate (evs : List Event) : Bool :=
  (evs.dropWhile fun e => !isUserUpdate e).all fun e => !isPHInsert e

/-! ## Concrete fixtures used by the closed theorems -/

/-- A user whose role is "Engineer" and whose other tracked fields are null
or set; owner of all fixtures below. -/
def u1 : User :=
  { id := 1, email := "u@example.com", password := "pw", firstName := some "A",
    lastName := some "B", projectName := none, clientName := none,
    role := some "Engineer", location := none }

/-- A store holding only `u1`, with empty tables and clock 5. -/
def st1 : Store :=
  { users := [u1], skills := [], skillHistories := [], profileHistories := [],
    nextSkillId := 1, now := 5 }

/-- A profile-update body changing exactly one tracked field:
role "Engineer" → "Manager". -/
def roleBody : ProfileBody :=
  { firstName := none, lastName := none, projectName := none, clientName := none,
    role := some (some "Manager"), location := none,
    email := none, password := none, bodyId := none }

/-- A skill-creation body: "Go", Beginner, no certification. -/
def goBody : SkillBody :=
  { userId := 1, name := "Go", level := "Beginner", certificationUrl := none }

/-- The "Go" skill at Beginner with no certification, id 1, owned by `u1`. -/
def goSkill : Skill :=
  { id := 1, userId := 1, name := "Go", level := "Beginner", updatedAt := 3,
    certificationUrl := none }

/-- A store holding `u1` and the existing `goSkill`, empty history tables. -/
def st2 : Store :=
  { users := [u1], skills := [goSkill], skillHistories := [], profileHistories := [],
    nextSkillId := 2, now := 5 }

/-- A skill-update body raising the level and adding a certification. -/
def goExpertBody : SkillBody :=
  { userId := 1, name := "Go", level := "Expert",
    certificationUrl := some (some "https://x/y") }

/-- A user whose role is "A"; fixture for the change-detection edge case. -/
def u8 : User :=
  { id := 1, email := "u@example.com", password := "pw", firstName := none,
    lastName := none, projectName := none, clientName := none,
    role := some "A", location := none }

/-- A store holding only `u8`. -/
def st8 : Store :=
  { users := [u8], skills := [], skillHistories := [], profileHistories := [],
    nextSkillId := 1, now := 5 }

/-- A body that sets role to the empty string — a value-level change from
"A", but a falsy value for the route's truthiness test. -/
def emptyRoleBody : ProfileBody :=
  { firstName := none, lastName := none, projectName := none, clientName := none,
    role := some (some ""), location := none,
    email := none, password := none, bodyId := none }

/-- The store after updating `goSkill` to Expert with a certification:
holds the two SkillHistory rows written by that single operation. -/
def st9 : Store := (updateSkillRoute st2 1 1 goExpertBody).2.1

/-- A skill owned by user 2, for ownership-check witnesses. -/
def otherSkill : Skill :=
  { id := 9, userId := 2, name := "Rust", level := "Expert", updatedAt := 3,
    certificationUrl := none }

/-- A store holding a skill owned by user 2. -/
def st5 : Store :=
  { users := [u1], skills := [otherSkill], skillHistories := [], profileHistories := [],
    nextSkillId := 10, now := 5 }

/-- A skill body whose userId (3) matches no requester in the witnesses. -/
def foreignBody : SkillBody :=
  { userId := 3, name := "Rust", level := "Expert", certificationUrl := none }

/-- A skill-update body for `goSkill` that changes only the name; level and
certification are supplied and equal to the stored values. -/
def nameOnlyBody : SkillBody :=
  { userId := 1, name := "Golang", level := "Beginner", certificationUrl := some none }

/-- A profile body whose supplied fields all equal `u1`'s stored values. -/
def noChangeBody : ProfileBody :=
  { firstName := some (some "A"), lastName := none, projectName := none,
    clientName := none, role := some (some "Engineer"), location := none,
    email := none, password := none, bodyId := none }

end SkillMetrics

namespace SkillMetrics

/-! ## Helper lemmas -/

/-- A user returned by `getUser` is in the table and carries the looked-up id. -/
theorem getUser_mem {st : Store} {uid : Nat} {cur : User}
    (h : getUser st uid = some cur) : cur ∈ st.users ∧ cur.id = uid := by
  refine ⟨List.mem_of_find?_eq_some h, ?_⟩
  have := List.find?_some h
  simpa using this

/-- A skill returned by `getSkillById` carries the looked-up id. -/
theorem getSkillById_id {st : Store} {sid : Nat} {ex : Skill}
    (h : getSkillById st sid = some ex) : ex.id = sid := by
  have := List.find?_some h
  simpa using this

/-- Replacing every skill whose id matches by a row with that same id makes
the lookup return the replacement. -/
theorem find_map_replace (l : List Skill) (sid : Nat) (u : Skill)
    (hu : u.id = sid) (ex : Skill)
    (h : l.find? (fun s => s.id == sid) = some ex) :
    (l.map fun s => if s.id == sid then u else s).find? (fun s => s.id == sid)
      = some u := by
  induction l with
  | nil => simp at h
  | cons a t ih =>
    by_cases ha : (a.id == sid) = true
    · simp [List.find?, ha, hu]
    · rw [List.find?_cons_of_neg _ (by simpa using ha)] at h
      simpa [List.find?, ha] using ih h

/-- An incoming body field that is absent or equal to the stored value is
never counted as changed by the route-level test. -/
theorem routeChanged_of_same (stored : JStr) (i : JVal)
    (h : i = none ∨ i = some stored) : routeChanged stored i = false := by
  rcases h with h | h <;> subst h
  · rfl
  · cases stored with
    | none => rfl
    | some s => simp [routeChanged]

/-- The filterMap body of `storageRows` only ever emits a row tagged with
the delta's own field name. -/
theorem storageRow_field_of_some {n : String} {stored : JStr} {v2 : Option String}
    {uid now : Nat} {r : ProfileHistory}
    (hf : (match v2 with
           | some v =>
             if storageChanged (some v) stored then
               some { userId := uid, field := n, previousValue := stored,
                      newValue := v, updatedAt := now }
             else none
           | none => none) = some r) : r.field = n := by
  match v2 with
  | none => simp at hf
  | some v =>
    by_cases hc : storageChanged (some v) stored
    · simp only [hc, if_true] at hf
      cases hf
      rfl
    · simp [hc] at hf

/-- Every row produced by the storage-level change detection is tagged with
one of the four raw tracked field names. -/
theorem storageRows_field_mem (uid now : Nat) (cur : User) (p : UserPatch) :
    ∀ r ∈ storageRows uid now cur p,
      r.field ∈ (["role", "projectName", "clientName", "location"] : List String) := by
  intro r hr
  simp only [storageRows, List.mem_filterMap] at hr
  obtain ⟨d, hd, hf⟩ := hr
  have hfield : r.field = d.1 := storageRow_field_of_some hf
  simp only [trackedDeltas, List.mem_cons, List.not_mem_nil, or_false] at hd
  rcases hd with h | h | h | h <;> subst h <;> simp [hfield]

/-- Every row produced by the route-level detection has a non-null
`previousValue` (the route coerces a null stored value to ""). -/
theorem routeRows_prev_some (uid now : Nat) (cur : User) (b : ProfileBody) :
    ∀ r ∈ routeRows uid now cur b, ∃ s, r.previousValue = some s := by
  intro r hr
  simp only [routeRows, List.mem_filterMap] at hr
  obtain ⟨d, _, hf⟩ := hr
  rcases d with ⟨n, stored, v⟩
  match v with
  | none => simp at hf
  | some none => simp at hf
  | some (some w) =>
    by_cases hc : (w != "" && (some w : JStr) != stored) = true
    · simp only [hc, if_true] at hf
      cases hf
      exact ⟨stored.getD "", rfl⟩
    · simp [hc] at hf

end SkillMetrics

namespace SkillMetrics

/-! ## Claim theorems -/

/-- Claim C1: a profile update by the owner changing exactly one tracked
field (role "Engineer" → "Manager") is claimed to insert exactly one
ProfileHistory row; the operation in fact inserts two — one from
`DatabaseStorage.updateUser` (raw field name, nullable previousValue) and a
second from the route handler (prettified label, previousValue defaulted
to "") — so the code inserts 2k rows, not k. -/
theorem c1_profile_update_writes_double_history :
    ((updateProfile st1 1 1 roleBody).2.1.profileHistories).length = 2 ∧
    (updateProfile st1 1 1 roleBody).2.1.profileHistories =
      [{ userId := 1, field := "role", previousValue := some "Engineer",
         newValue := "Manager", updatedAt := 5 },
       { userId := 1, field := "Role", previousValue := some "Engineer",
         newValue := "Manager", updatedAt := 5 }] := by decide

/-- Claim C2: an accepted skill creation is claimed to insert exactly one
SkillHistory row mirroring the created skill; the operation in fact inserts
two identical rows — one from `DatabaseStorage.createSkill` and a second
from the `POST /api/skills` handler. -/
theorem c2_skill_create_writes_double_history :
    ((createSkillRoute st1 1 goBody).2.1.skillHistories).length = 2 ∧
    (createSkillRoute st1 1 goBody).1 =
      .created { id := 1, userId := 1, name := "Go", level := "Beginner",
                 updatedAt := 5, certificationUrl := none } ∧
    (createSkillRoute st1 1 goBody).2.1.skillHistories =
      [{ skillId := 1, userId := 1, name := "Go", level := "Beginner",
         certificationUrl := none, updatedAt := 5 },
       { skillId := 1, userId := 1, name := "Go", level := "Beginner",
         certificationUrl := none, updatedAt := 5 }] := by decide

/-- Claim C3: a skill update by the owner that changes the level and the
certification is claimed to insert exactly one SkillHistory row; the
operation in fact inserts two — one from the `PUT /api/skills/:id` handler
and a second from `DatabaseStorage.updateSkill` -- both carrying the
post-update level and certification. -/
theorem c3_skill_update_writes_double_history :
    ((updateSkillRoute st2 1 1 goExpertBody).2.1.skillHistories).length = 2 ∧
    (updateSkillRoute st2 1 1 goExpertBody).2.1.skillHistories =
      [{ skillId := 1, userId := 1, name := "Go", level := "Expert",
         certificationUrl := some "https://x/y", updatedAt := 5 },
       { skillId := 1, userId := 1, name := "Go", level := "Expert",
         certificationUrl := some "https://x/y", updatedAt := 5 }] := by decide

/-- Claim C4 (counterexample): in the profile update changing the role, the
write trace is history insert, user-row update, history insert — the
route-level ProfileHistory row is persisted after the User row is updated,
so it is false that every ProfileHistory row generated by the operation is
persisted before the User row update. -/
theorem c4_counterexample_route_row_after_user_update :
    phAllBeforeUserUpdate (updateProfile st1 1 1 roleBody).2.2 = false ∧
    (updateProfile st1 1 1 roleBody).2.2 =
      [Event.phInsert { userId := 1, field := "role", previousValue := some "Engineer",
                        newValue := "Manager", updatedAt := 5 },
       Event.userUpdate 1,
       Event.phInsert { userId := 1, field := "Role", previousValue := some "Engineer",
                        newValue := "Manager", updatedAt := 5 }] := by decide

end SkillMetrics

namespace SkillMetrics

/-- Claim C4 (amended): in a profile update by the owner that changes at
least one field, the ProfileHistory rows generated by the storage-level
change detection (tagged with the raw tracked field names) are persisted
before the User row update, while the rows generated by the route-level
detection (whose previousValue is always a string, never null) are
persisted after it. -/
theorem c4_amended_storage_rows_before_update_route_rows_after
    (st : Store) (uid : Nat) (b : ProfileBody) (cur : User)
    (hfind : getUser st uid = some cur)
    (hch : routeAnyChanged cur b = true) :
    ∃ pre post,
      (updateProfile st uid uid b).2.2 = pre ++ Event.userUpdate uid :: post ∧
      (∀ e ∈ pre, ∃ r, e = Event.phInsert r ∧
        r.field ∈ (["role", "projectName", "clientName", "location"] : List String)) ∧
      (∀ e ∈ post, ∃ r, e = Event.phInsert r ∧ ∃ s, r.previousValue = some s) := by
  refine ⟨(storageRows uid st.now cur (mkPatch cur b)).map Event.phInsert,
          (routeRows uid st.now cur b).map Event.phInsert, ?_, ?_, ?_⟩
  · simp [updateProfile, hfind, hch, updateUser]
  · intro e he
    obtain ⟨r, hr, rfl⟩ := List.mem_map.mp he
    exact ⟨r, rfl, storageRows_field_mem _ _ _ _ r hr⟩
  · intro e he
    obtain ⟨r, hr, rfl⟩ := List.mem_map.mp he
    exact ⟨r, rfl, routeRows_prev_some _ _ _ _ r hr⟩

/-- Witness for the amended C4 theorem at the concrete role-change update. -/
theorem c4_amended_witness :
    ∃ pre post,
      (updateProfile st1 1 1 roleBody).2.2 = pre ++ Event.userUpdate 1 :: post ∧
      (∀ e ∈ pre, ∃ r, e = Event.phInsert r ∧
        r.field ∈ (["role", "projectName", "clientName", "location"] : List String)) ∧
      (∀ e ∈ post, ∃ r, e = Event.phInsert r ∧ ∃ s, r.previousValue = some s) :=
  c4_amended_storage_rows_before_update_route_rows_after st1 1 roleBody u1
    (by decide) (by decide)

/-- Claim C5: a skill create or update whose payload userId differs from
the requester fails Forbidden with no store writes, and a skill update on a
skill owned by someone else fails Forbidden with no store writes. -/
theorem c5_forbidden_produces_no_store_writes (st : Store) (req sid : Nat) (b : SkillBody) :
    (b.userId ≠ req →
      createSkillRoute st req b = (.forbidden, st, []) ∧
      updateSkillRoute st req sid b = (.forbidden, st, [])) ∧
    (∀ ex, getSkillById st sid = some ex → b.userId = req → ex.userId ≠ req →
      updateSkillRoute st req sid b = (.forbidden, st, [])) := by
  constructor
  · intro h
    have hb : (b.userId != req) = true := by simpa [bne_iff_ne] using h
    exact ⟨by simp [createSkillRoute, hb], by simp [updateSkillRoute, hb]⟩
  · intro ex hex h1 h2
    have hb : (b.userId != req) = false := by simp [h1]
    have ho : (ex.userId != req) = true := by simpa [bne_iff_ne] using h2
    simp [updateSkillRoute, hb, hex, ho]

/-- Witness for C5: requester 1 sending a body owned by user 3 is rejected
with the store untouched, for create and for update. -/
theorem c5_witness :
    createSkillRoute st5 1 foreignBody = (.forbidden, st5, []) ∧
    updateSkillRoute st5 1 9 foreignBody = (.forbidden, st5, []) :=
  (c5_forbidden_produces_no_store_writes st5 1 9 foreignBody).1 (by decide)

/-- Claim C6: a skill update by the owner whose supplied level and
certification equal the stored ones writes zero SkillHistory rows, while
the skill row's name is still updated. -/
theorem c6_name_only_update_writes_no_history (st : Store) (req sid : Nat)
    (b : SkillBody) (ex : Skill)
    (hfind : getSkillById st sid = some ex)
    (hown : ex.userId = req) (hbu : b.userId = req)
    (hlev : b.level = ex.level)
    (hcert : b.certificationUrl = some ex.certificationUrl) :
    ∃ updated,
      updateSkillRoute st req sid b =
        (.okSkill updated,
         { st with skills := st.skills.map fun s => if s.id == sid then updated else s },
         [Event.skillUpdate sid]) ∧
      updated.name = b.name ∧
      (updateSkillRoute st req sid b).2.1.skillHistories = st.skillHistories ∧
      getSkillById (updateSkillRoute st req sid b).2.1 sid = some updated := by
  have hb : (b.userId != req) = false := by simp [hbu]
  have ho : (ex.userId != req) = false := by simp [hown]
  have hl : (ex.level != b.level) = false := by simp [hlev]
  have hl2 : (b.level != ex.level) = false := by simp [hlev]
  refine ⟨{ id := ex.id, userId := b.userId, name := b.name, level := b.level,
            updatedAt := st.now, certificationUrl := ex.certificationUrl }, ?_, rfl, ?_, ?_⟩
  · simp [updateSkillRoute, hb, hfind, ho, hl, hcert, updateSkill, hl2]
  · simp [updateSkillRoute, hb, hfind, ho, hl, hcert, updateSkill, hl2]
  · have heq : updateSkillRoute st req sid b =
        (.okSkill { id := ex.id, userId := b.userId, name := b.name, level := b.level,
                    updatedAt := st.now, certificationUrl := ex.certificationUrl },
         { st with skills := st.skills.map fun s => if s.id == sid then
             { id := ex.id, userId := b.userId, name := b.name, level := b.level,
               updatedAt := st.now, certificationUrl := ex.certificationUrl } else s },
         [Event.skillUpdate sid]) := by
      simp [updateSkillRoute, hb, hfind, ho, hl, hcert, updateSkill, hl2]
    rw [heq]
    have hid := getSkillById_id hfind
    exact find_map_replace st.skills sid _ hid ex hfind

/-- Witness for C6 at the concrete rename of the "Go" skill. -/
theorem c6_witness :
    ∃ updated,
      updateSkillRoute st2 1 1 nameOnlyBody =
        (.okSkill updated,
         { st2 with skills := st2.skills.map fun s => if s.id == 1 then updated else s },
         [Event.skillUpdate 1]) ∧
      updated.name = nameOnlyBody.name ∧
      (updateSkillRoute st2 1 1 nameOnlyBody).2.1.skillHistories = st2.skillHistories ∧
      getSkillById (updateSkillRoute st2 1 1 nameOnlyBody).2.1 1 = some updated :=
  c6_name_only_update_writes_no_history st2 1 1 nameOnlyBody goSkill
    (by decide) rfl rfl rfl rfl

/-- Claim C7: a profile update by the owner whose supplied fields are all
absent or equal to the stored values succeeds, returns the current user,
and leaves the store — history tables and user rows — unchanged. -/
theorem c7_no_value_change_no_effect (st : Store) (uid : Nat) (b : ProfileBody) (cur : User)
    (hfind : getUser st uid = some cur)
    (h1 : b.firstName = none ∨ b.firstName = some cur.firstName)
    (h2 : b.lastName = none ∨ b.lastName = some cur.lastName)
    (h3 : b.projectName = none ∨ b.projectName = some cur.projectName)
    (h4 : b.clientName = none ∨ b.clientName = some cur.clientName)
    (h5 : b.role = none ∨ b.role = some cur.role)
    (h6 : b.location = none ∨ b.location = some cur.location) :
    updateProfile st uid uid b = (.okUser cur, st, []) := by
  have hc : routeAnyChanged cur b = false := by
    simp [routeAnyChanged, routeDeltas,
          routeChanged_of_same _ _ h1, routeChanged_of_same _ _ h2,
          routeChanged_of_same _ _ h3, routeChanged_of_same _ _ h4,
          routeChanged_of_same _ _ h5, routeChanged_of_same _ _ h6]
  simp [updateProfile, hfind, hc]

/-- Witness for C7: a body resupplying `u1`'s stored firstName and role is
a no-op returning the current user. -/
theorem c7_witness :
    updateProfile st1 1 1 noChangeBody = (.okUser u1, st1, []) :=
  c7_no_value_change_no_effect st1 1 noChangeBody u1 (by decide)
    (Or.inr rfl) (Or.inl rfl) (Or.inl rfl) (Or.inl rfl) (Or.inr rfl) (Or.inl rfl)

/-- Claim C8 (counterexample): with stored role "A" and incoming role ""
the values differ (value-level inequality holds), yet the operation detects
no change and inserts no history row — change detection at the route level
is a truthiness-plus-inequality test, not a value-level inequality. -/
theorem c8_counterexample_empty_string_not_detected :
    updateProfile st8 1 1 emptyRoleBody = (.okUser u8, st8, []) ∧
    emptyRoleBody.role = some (some "") ∧
    u8.role = some "A" ∧
    (some "" : JStr) ≠ some "A" := by decide

/-- Claim C8 (amended): the route-level test counts a field as changed iff
the incoming value is a non-empty string different from the stored value
(null and "" are never counted); the storage-level test counts a field as
changed iff the field is present and its value differs (value-level,
including null-vs-value and null-vs-empty-string); in both paths an absent
field is never counted as changed. -/
theorem c8_amended_change_detection_characterisation
    (stored : JStr) (i : JVal) (v : Option String) :
    (routeChanged stored i = true ↔
      ∃ s, i = some (some s) ∧ s ≠ "" ∧ (some s : JStr) ≠ stored) ∧
    (storageChanged v stored = true ↔ ∃ s, v = some s ∧ (some s : JStr) ≠ stored) ∧
    routeChanged stored none = false ∧
    storageChanged none stored = false := by
  refine ⟨?_, ?_, rfl, rfl⟩
  · match i with
    | none => simp [routeChanged]
    | some none => simp [routeChanged]
    | some (some s) =>
      simp only [routeChanged, Bool.and_eq_true, bne_iff_ne, ne_eq]
      constructor
      · rintro ⟨hne, hs⟩
        exact ⟨s, rfl, hne, hs⟩
      · rintro ⟨s2, hs2, hne, hs⟩
        cases hs2
        exact ⟨hne, hs⟩
  · match v with
    | none => simp [storageChanged]
    | some s =>
      simp only [storageChanged, Option.isSome_some, Bool.true_and, bne_iff_ne, ne_eq]
      constructor
      · intro h
        exact ⟨s, rfl, h⟩
      · rintro ⟨s2, hs2, h⟩
        cases hs2
        exact h

/-- Claim C9 (counterexample): a single skill update writes two history
rows stamped with the same request time, so the returned listing is not
strictly descending in updatedAt. -/
theorem c9_counterexample_equal_timestamps :
    (getSkillHistoryBySkillId st9 1).length = 2 ∧
    ¬ List.Pairwise (fun a b => b.updatedAt < a.updatedAt)
        (getSkillHistoryBySkillId st9 1) := by decide

/-- Claim C9 (amended): for every store, skill and user, the history
listings are sorted in non-increasing (descending, ties allowed) updatedAt
order. -/
theorem c9_amended_history_sorted_descending (st : Store) (sid uid : Nat) :
    List.Pairwise (fun a b => b.updatedAt ≤ a.updatedAt) (getSkillHistoryBySkillId st sid) ∧
    List.Pairwise (fun a b => b.updatedAt ≤ a.updatedAt) (getProfileHistoryByUserId st uid) := by
  constructor
  · exact List.sorted_insertionSort shDesc _
  · exact List.sorted_insertionSort phDesc _

/-- Claim C10: an accepted profile update — whatever the body contains,
including email, password or id keys — returns a user with the original
id, email and password, and leaves every stored user's id, email and
password unchanged. -/
theorem c10_profile_update_preserves_identity_fields
    (st : Store) (uid : Nat) (b : ProfileBody) (cur : User)
    (hfind : getUser st uid = some cur) :
    ∃ res, (updateProfile st uid uid b).1 = .okUser res ∧
      res.id = cur.id ∧ res.email = cur.email ∧ res.password = cur.password ∧
      ∀ u ∈ (updateProfile st uid uid b).2.1.users,
        ∃ u0, u0 ∈ st.users ∧ u.id = u0.id ∧ u.email = u0.email ∧ u.password = u0.password := by
  by_cases hc : routeAnyChanged cur b = true
  · refine ⟨applyPatch cur (mkPatch cur b), ?_, rfl, rfl, rfl, ?_⟩
    · simp [updateProfile, hfind, hc, updateUser]
    · intro u hu
      simp only [updateProfile, hfind, hc, updateUser] at hu
      simp only [bne_self_eq_false, Bool.false_eq_true, if_false, if_true] at hu
      simp only [List.mem_map] at hu
      obtain ⟨u0, hu0, rfl⟩ := hu
      by_cases h0 : (u0.id == uid) = true
      · exact ⟨cur, (getUser_mem hfind).1, by simp [h0, applyPatch], by simp [h0, applyPatch],
          by simp [h0, applyPatch]⟩
      · exact ⟨u0, hu0, by simp [h0], by simp [h0], by simp [h0]⟩
  · refine ⟨cur, ?_, rfl, rfl, rfl, ?_⟩
    · simp [updateProfile, hfind, hc]
    · intro u hu
      simp only [updateProfile, hfind, hc] at hu
      simp only [bne_self_eq_false, Bool.false_eq_true, if_false] at hu
      exact ⟨u, by simpa using hu, rfl, rfl, rfl⟩

/-- Witness for C10 at the concrete role-change update. -/
theorem c10_witness :
    ∃ res, (updateProfile st1 1 1 roleBody).1 = .okUser res ∧
      res.id = u1.id ∧ res.email = u1.email ∧ res.password = u1.password ∧
      ∀ u ∈ (updateProfile st1 1 1 roleBody).2.1.users,
        ∃ u0, u0 ∈ st1.users ∧ u.id = u0.id ∧ u.email = u0.email ∧ u.password = u0.password :=
  c10_profile_update_preserves_identity_fields st1 1 roleBody u1 (by decide)

end SkillMetrics
